import Mathlib

/-!
Verification of the SD-WebUI resource monitor's alerting core.

The development shallowly embeds the alarm controller of
`sd_webui_monitor.py` (`IntelArcMonitorApp._process_fetched_data` and its
helpers) and the stall detector of `monitor_data.py`
(`DataCollector.check_webui_generation_status`).  Timestamps and byte
counts (Python floats) are modelled as rationals; the `just_playback`
handle is an `Option Bool` (`none` when the player could not be created,
otherwise its `active` flag).  One engine tick flattens one scheduler
tick of `update_gpu_info` followed by the completion of its fetch and the
main-thread processing of the result.
-/

set_option autoImplicit false

namespace Monitor

/-! ### Configuration constants (monitor_config.py) -/

def MEMORY_WARN_THRESHOLD_GB : ℚ := 8

def WARN_COUNT_THRESHOLD : ℕ := 7

def VIRTUAL_MEMORY_WARN_THRESHOLD_GB : ℚ := 80

def WEBUI_CHECK_INTERVAL_SECONDS : ℚ := 30

def WEBUI_WARN_CYCLE_THRESHOLD : ℕ := 2

def MEMORY_WARN_THRESHOLD_BYTES : ℚ := MEMORY_WARN_THRESHOLD_GB * 1024 ^ 3

def VM_LOG_INTERVAL_SECONDS : ℚ := 1800

/-! ### Data model -/

/-- One entry of `fetched_data` as consumed by `_process_fetched_data`:
the fields of the merged dictionary built in `_fetch_all_data` that the
alarm logic and the periodic VM logger read.  `clip_finished` records the
external fact that the playing audio clip ran out on its own since the
previous tick (the Python code re-reads `self.playback.active` each
tick). -/
structure Sample where
  mem_used_bytes : ℚ
  vram_system_used_gb : ℚ
  is_webui_alert_active : Bool
  current_file_count : ℕ
  current_time : ℚ
  clip_finished : Bool
deriving Repr, DecidableEq

/-- Alarm-controller state of `IntelArcMonitorApp` (constructor, lines
43-50): counters, debounce count, alarm lifecycle, playback handle. -/
structure AppState where
  total_checks : ℕ
  success_count : ℕ
  failure_count : ℕ
  is_alarm_active : Bool
  consecutive_warn_count : ℕ
  alarm_start_time : Option ℚ
  playback_count : ℕ
  playback : Option Bool
deriving Repr, DecidableEq

/-- The periodic VM logger's record variables (`first_vm_record_time`,
`first_vm_used_gb`, `last_vm_record_time`, `last_vm_used_gb`). -/
structure VmLog where
  first_vm_record_time : Option ℚ
  first_vm_used_gb : Option ℚ
  last_vm_record_time : Option ℚ
  last_vm_used_gb : Option ℚ
deriving Repr, DecidableEq

/-- Observable effects of processing one tick: whether the error branch
updated the UI (`update_labels_on_error`), how many times
`_play_beep_alarm` was invoked, how many times `playback.stop()` was
invoked, the alarm duration logged on recovery, and the
`is_interrupt_warn_met` flag passed to the UI (`none` on the error
path). -/
structure TickOutput where
  error_snapshot : Bool
  play_calls : ℕ
  stop_calls : ℕ
  logged_duration : Option ℚ
  interrupt_warn : Option Bool
deriving Repr, DecidableEq

/-! ### Alarm logic (sd_webui_monitor.py) -/

/-- Line 225: `mem_used_bytes < CONFIG.MEMORY_WARN_THRESHOLD_BYTES`. -/
def is_vram_warn_met (mem_used_bytes : ℚ) : Bool :=
  decide (mem_used_bytes < MEMORY_WARN_THRESHOLD_BYTES)

/-- Line 226: VRAM warning OR webui stall alert. -/
def is_interrupt_warn_met (d : Sample) : Bool :=
  is_vram_warn_met d.mem_used_bytes || d.is_webui_alert_active

/-- If the clip ran out on its own, the handle's `active` flag reads
false this tick. -/
def applyClip (s : AppState) (finished : Bool) : AppState :=
  if finished = true then { s with playback := s.playback.map (fun _ => false) } else s

/-- `_play_beep_alarm` (lines 95-116): bump `playback_count`; if a player
exists, stop it when still active, seek to 0 and play. Returns the new
state and the number of `stop()` calls made inside. -/
def play_beep_alarm (s : AppState) : AppState × ℕ :=
  ({ s with playback_count := s.playback_count + 1,
            playback := s.playback.map (fun _ => true) },
   if s.playback = some true then 1 else 0)

/-- Lines 231-264: the `is_interrupt_warn_met` branch of
`_process_fetched_data`. -/
def alarmOnTick (s : AppState) (now : ℚ) : AppState × TickOutput :=
  if s.is_alarm_active = false then
    if WARN_COUNT_THRESHOLD ≤ s.consecutive_warn_count + 1 then
      let s1 := { s with alarm_start_time := some (s.alarm_start_time.getD now),
                         is_alarm_active := true,
                         failure_count := s.failure_count + 1,
                         consecutive_warn_count := 0 }
      let p := play_beep_alarm s1
      (p.1, ⟨false, 1, p.2, none, none⟩)
    else
      ({ s with consecutive_warn_count := s.consecutive_warn_count + 1 },
       ⟨false, 0, 0, none, none⟩)
  else
    if s.playback = some false then
      let p := play_beep_alarm s
      (p.1, ⟨false, 1, p.2, none, none⟩)
    else
      (s, ⟨false, 0, 0, none, none⟩)

/-- Lines 266-288: the recovery branch of `_process_fetched_data`. -/
def alarmOffTick (s : AppState) (now : ℚ) : AppState × TickOutput :=
  let r :=
    if s.is_alarm_active = true then
      let q : AppState × Option ℚ :=
        match s.alarm_start_time with
        | some t0 =>
            ({ s with is_alarm_active := false, alarm_start_time := none,
                      playback_count := 0 },
             some (now - t0))
        | none => ({ s with is_alarm_active := false }, none)
      if q.1.playback = some true then
        (({ q.1 with playback := some false } : AppState), (1 : ℕ), q.2)
      else
        (q.1, (0 : ℕ), q.2)
    else
      (s, (0 : ℕ), (none : Option ℚ))
  let s2 := if 0 < r.1.consecutive_warn_count then { r.1 with consecutive_warn_count := 0 } else r.1
  ({ s2 with success_count := s2.success_count + 1 },
   ⟨false, 0, r.2.1, r.2.2, none⟩)

/-- `_log_vm_usage_periodically` (lines 118-141). -/
def log_vm_usage (v : VmLog) (current_time vm_gb : ℚ) : VmLog :=
  match v.first_vm_record_time with
  | none =>
      { first_vm_record_time := some current_time, first_vm_used_gb := some vm_gb,
        last_vm_record_time := some current_time, last_vm_used_gb := some vm_gb }
  | some _ =>
      match v.last_vm_record_time with
      | some tlast =>
          if VM_LOG_INTERVAL_SECONDS - 1 ≤ current_time - tlast then
            { v with last_vm_record_time := some current_time, last_vm_used_gb := some vm_gb }
          else v
      | none => v

/-- `_process_fetched_data` (lines 204-294).  `none` is the error path
(fetch raised or produced no data); a `some` sample runs the alarm state
machine and then the periodic VM logger. -/
def processFetchedData (s : AppState) (v : VmLog) (now : ℚ) (fetched : Option Sample) :
    AppState × VmLog × TickOutput :=
  match fetched with
  | none =>
      ({ s with failure_count := s.failure_count + 1 }, v,
       ⟨true, 0, 0, none, none⟩)
  | some d =>
      let s0 := applyClip s d.clip_finished
      let warn := is_interrupt_warn_met d
      let r := if warn = true then alarmOnTick s0 now else alarmOffTick s0 now
      (r.1, log_vm_usage v d.current_time d.vram_system_used_gb,
       { r.2 with interrupt_warn := some warn })

/-- Iterated processing of a list of `(now, fetched)` ticks. -/
def processRun (s : AppState) (v : VmLog) :
    List (ℚ × Option Sample) → AppState × VmLog × List TickOutput
  | [] => (s, v, [])
  | (now, d) :: rest =>
      let r := processFetchedData s v now d
      let q := processRun r.1 r.2.1 rest
      (q.1, q.2.1, r.2.2 :: q.2.2)

/-- Total number of `_play_beep_alarm` invocations over a run. -/
def playsSum : List TickOutput → ℕ
  | [] => 0
  | o :: r => o.play_calls + playsSum r

/-! ### Stall detector (monitor_data.py) -/

/-- Webui file-count tracking fields of `DataCollector` (lines 23-26):
`last_webui_check_time`, `last_webui_file_count` (initialised to `-1` as
the uninitialised sentinel), `consecutive_webui_no_increase_count`. -/
structure DataCollector where
  last_webui_check_time : ℚ
  last_webui_file_count : Int
  consecutive_webui_no_increase_count : ℕ
deriving Repr, DecidableEq

/-- `DataCollector.check_webui_generation_status` (lines 187-232),
returning the updated tracking state and `is_webui_alert_active`.  Note
the window test on line 205 is
`time_since_last_check >= WEBUI_CHECK_INTERVAL_SECONDS - 1.0`. -/
def check_webui_generation_status (c : DataCollector) (current_time : ℚ)
    (current_file_count : ℕ) : DataCollector × Bool :=
  if c.last_webui_file_count = -1 then
    ({ c with last_webui_file_count := (current_file_count : Int),
              last_webui_check_time := current_time }, false)
  else if WEBUI_CHECK_INTERVAL_SECONDS - 1 ≤ current_time - c.last_webui_check_time then
    if c.last_webui_file_count < (current_file_count : Int) then
      ({ c with consecutive_webui_no_increase_count := 0,
                last_webui_file_count := (current_file_count : Int),
                last_webui_check_time := current_time }, false)
    else
      ({ c with
          consecutive_webui_no_increase_count := c.consecutive_webui_no_increase_count + 1,
          last_webui_file_count := (current_file_count : Int),
          last_webui_check_time := current_time },
       decide (WEBUI_WARN_CYCLE_THRESHOLD ≤ c.consecutive_webui_no_increase_count + 1))
  else if 0 < c.consecutive_webui_no_increase_count then
    (c, decide (WEBUI_WARN_CYCLE_THRESHOLD ≤ c.consecutive_webui_no_increase_count))
  else
    (c, false)

/-! ### GPU statistics fallback (monitor_data.py, get_gpu_stats_windows) -/

/-- Shape of the dictionary returned by `get_gpu_stats_windows`. -/
structure GpuStats where
  gpu_util : ℚ
  mem_used_bytes : ℚ
  mem_total_bytes : ℚ
  vram_local_percent : ℚ
deriving Repr, DecidableEq

/-- The value returned from the `except` branch of `get_gpu_stats_windows`
(line 121) when the PowerShell query fails. -/
def gpu_stats_on_error : GpuStats :=
  { gpu_util := 0, mem_used_bytes := 0, mem_total_bytes := 16 * 1024 ^ 3,
    vram_local_percent := 0 }

/-! ### UI risk display (monitor_ui.py, update_labels_with_data) -/

/-- The colour chosen for the VM status label (lines 184-188): orange
once committed memory reaches the 80 GB display threshold. -/
def vm_color (vram_system_used_gb : ℚ) : String :=
  if VIRTUAL_MEMORY_WARN_THRESHOLD_GB ≤ vram_system_used_gb then "orange"
  else "SystemButtonFace"

/-! ### Engine layer: one scheduler tick -/

/-- Raw per-tick fetch data: what `_fetch_all_data` obtains from the
outside world before the stall detector and unit conversions run.
`clip_finished` is the external audio-clip event (see `Sample`). -/
structure RawFetch where
  mem_used_bytes : ℚ
  vram_system_used_bytes : ℚ
  current_file_count : ℕ
  clip_finished : Bool
deriving Repr, DecidableEq

/-- Whole-engine state: the app's alarm controller, the VM logger's
records, and the data collector's stall-tracking fields. -/
structure EngineState where
  app : AppState
  vmlog : VmLog
  collector : DataCollector
deriving Repr, DecidableEq

/-- One flattened scheduler tick: `update_gpu_info` increments
`total_checks` and submits a fetch; on completion the stall detector runs
inside `_fetch_all_data`, then `_process_fetched_data` runs on the main
thread.  `none` means the fetch raised (e.g. `get_system_stats` returned
`None`, which happens before the stall check, so the collector state is
untouched). -/
def engineTick (e : EngineState) (now : ℚ) (fetch : Option RawFetch) :
    EngineState × TickOutput :=
  let appT := { e.app with total_checks := e.app.total_checks + 1 }
  match fetch with
  | none =>
      let r := processFetchedData appT e.vmlog now none
      (⟨r.1, r.2.1, e.collector⟩, r.2.2)
  | some f =>
      let w := check_webui_generation_status e.collector now f.current_file_count
      let d : Sample :=
        { mem_used_bytes := f.mem_used_bytes,
          vram_system_used_gb := f.vram_system_used_bytes / 1024 ^ 3,
          is_webui_alert_active := w.2,
          current_file_count := f.current_file_count,
          current_time := now,
          clip_finished := f.clip_finished }
      let r := processFetchedData appT e.vmlog now (some d)
      (⟨r.1, r.2.1, w.1⟩, r.2.2)

/-- Iterated engine ticks over a list of `(now, fetch)` inputs. -/
def engineRun (e : EngineState) :
    List (ℚ × Option RawFetch) → EngineState × List TickOutput
  | [] => (e, [])
  | (now, f) :: rest =>
      let r := engineTick e now f
      let q := engineRun r.1 rest
      (q.1, r.2 :: q.2)

/-! ### Initial states -/

/-- Counters and alarm state as set in `IntelArcMonitorApp.__init__`
(lines 43-50); `pb` is the playback handle produced by `_init_playback`
(`none` when loading failed or off Windows). -/
def initAppState (pb : Option Bool) : AppState :=
  { total_checks := 0, success_count := 0, failure_count := 0,
    is_alarm_active := false, consecutive_warn_count := 0,
    alarm_start_time := none, playback_count := 0, playback := pb }

/-- VM record variables start as `None` (lines 53-56). -/
def initVmLog : VmLog :=
  { first_vm_record_time := none, first_vm_used_gb := none,
    last_vm_record_time := none, last_vm_used_gb := none }

/-- `DataCollector.__init__` (lines 23-26): check time is construction
time, file count sentinel `-1`, streak 0. -/
def initCollector (t : ℚ) : DataCollector :=
  { last_webui_check_time := t, last_webui_file_count := -1,
    consecutive_webui_no_increase_count := 0 }

/-- Engine state right after startup. -/
def initEngine (pb : Option Bool) (t : ℚ) : EngineState :=
  ⟨initAppState pb, initVmLog, initCollector t⟩

/-! ### Branch equations for `processFetchedData` -/

/-- Playback flag as observed after the clip event of this tick. -/
def clipPb (pb : Option Bool) (finished : Bool) : Option Bool :=
  if finished = true then pb.map (fun _ => false) else pb

theorem applyClip_eq (s : AppState) (f : Bool) :
    applyClip s f = { s with playback := clipPb s.playback f } := by
  unfold applyClip clipPb
  cases f <;> simp

theorem clipPb_ne_some_true (pb : Option Bool) (f : Bool) (h : pb ≠ some true) :
    clipPb pb f ≠ some true := by
  unfold clipPb
  cases f <;> cases pb <;> simp_all

/-- Error path: only `failure_count` moves; evaluation is skipped. -/
theorem processFD_err_eq (s : AppState) (v : VmLog) (now : ℚ) :
    processFetchedData s v now none =
      ({ s with failure_count := s.failure_count + 1 }, v,
       ⟨true, 0, 0, none, none⟩) := rfl

/-- Arming step: condition met, alarm inactive, threshold not yet
reached (lines 233-261, `else` of line 236). -/
theorem processFD_arm_eq (s : AppState) (v : VmLog) (now : ℚ) (d : Sample)
    (hw : is_interrupt_warn_met d = true)
    (ha : s.is_alarm_active = false)
    (hc : s.consecutive_warn_count + 1 < WARN_COUNT_THRESHOLD) :
    processFetchedData s v now (some d) =
      ({ s with consecutive_warn_count := s.consecutive_warn_count + 1,
                playback := clipPb s.playback d.clip_finished },
       log_vm_usage v d.current_time d.vram_system_used_gb,
       ⟨false, 0, 0, none, some true⟩) := by
  obtain ⟨tc, sc, fc, act, cw, ast, pc, pb⟩ := s
  simp only at ha hc
  have hc' : ¬ (WARN_COUNT_THRESHOLD ≤ cw + 1) := by omega
  cases hcf : d.clip_finished <;>
    simp [processFetchedData, hw, ha, hc', hcf, applyClip, clipPb, alarmOnTick]

/-- Firing step: condition met, alarm inactive, the incremented counter
reaches the threshold (lines 236-253). -/
theorem processFD_fire_eq (s : AppState) (v : VmLog) (now : ℚ) (d : Sample)
    (hw : is_interrupt_warn_met d = true)
    (ha : s.is_alarm_active = false)
    (hc : WARN_COUNT_THRESHOLD ≤ s.consecutive_warn_count + 1) :
    processFetchedData s v now (some d) =
      ({ s with is_alarm_active := true,
                failure_count := s.failure_count + 1,
                consecutive_warn_count := 0,
                alarm_start_time := some (s.alarm_start_time.getD now),
                playback_count := s.playback_count + 1,
                playback := Option.map (fun _ => true) s.playback },
       log_vm_usage v d.current_time d.vram_system_used_gb,
       ⟨false, 1, if clipPb s.playback d.clip_finished = some true then 1 else 0,
        none, some true⟩) := by
  obtain ⟨tc, sc, fc, act, cw, ast, pc, pb⟩ := s
  simp only at ha hc
  rcases pb with _ | b <;> cases hcf : d.clip_finished <;> try cases b
  all_goals
    simp [processFetchedData, hw, ha, hc, hcf, applyClip, clipPb, alarmOnTick,
      play_beep_alarm]

/-- Active tick with the clip still audible (or no player): condition
met, alarm active, no replay (line 263 guard false). -/
theorem processFD_active_noreplay_eq (s : AppState) (v : VmLog) (now : ℚ) (d : Sample)
    (hw : is_interrupt_warn_met d = true)
    (ha : s.is_alarm_active = true)
    (hpb : clipPb s.playback d.clip_finished ≠ some false) :
    processFetchedData s v now (some d) =
      ({ s with playback := clipPb s.playback d.clip_finished },
       log_vm_usage v d.current_time d.vram_system_used_gb,
       ⟨false, 0, 0, none, some true⟩) := by
  obtain ⟨tc, sc, fc, act, cw, ast, pc, pb⟩ := s
  simp only at ha hpb
  cases hcf : d.clip_finished <;>
    simp_all [processFetchedData, hw, hcf, applyClip, clipPb, alarmOnTick]

/-- Active tick after the clip ran out: the code re-invokes
`_play_beep_alarm` (line 263-264). -/
theorem processFD_active_replay_eq (s : AppState) (v : VmLog) (now : ℚ) (d : Sample)
    (hw : is_interrupt_warn_met d = true)
    (ha : s.is_alarm_active = true)
    (hpb : clipPb s.playback d.clip_finished = some false) :
    processFetchedData s v now (some d) =
      ({ s with playback_count := s.playback_count + 1,
                playback := Option.map (fun _ => true) s.playback },
       log_vm_usage v d.current_time d.vram_system_used_gb,
       ⟨false, 1, 0, none, some true⟩) := by
  obtain ⟨tc, sc, fc, act, cw, ast, pc, pb⟩ := s
  simp only at ha hpb
  rcases pb with _ | b <;> cases hcf : d.clip_finished <;> try cases b
  all_goals
    simp_all [processFetchedData, hw, hcf, applyClip, clipPb, alarmOnTick,
      play_beep_alarm]

/-- Recovery branch while the alarm is inactive (lines 266-288 with the
line 268 guard false): the warn streak resets and `success_count`
increments. -/
theorem processFD_off_idle_eq (s : AppState) (v : VmLog) (now : ℚ) (d : Sample)
    (hw : is_interrupt_warn_met d = false)
    (ha : s.is_alarm_active = false) :
    processFetchedData s v now (some d) =
      ({ s with consecutive_warn_count := 0,
                success_count := s.success_count + 1,
                playback := clipPb s.playback d.clip_finished },
       log_vm_usage v d.current_time d.vram_system_used_gb,
       ⟨false, 0, 0, none, some false⟩) := by
  obtain ⟨tc, sc, fc, act, cw, ast, pc, pb⟩ := s
  simp only at ha
  cases hcf : d.clip_finished <;> cases cw <;>
    simp [processFetchedData, hw, ha, hcf, applyClip, clipPb, alarmOffTick]

/-- Recovery from Active (lines 266-279) with `alarm_start_time` set:
deactivate, log the duration, clear the start time and replay counter,
stop the player if it is still audible, reset the warn streak, and count
a success. -/
theorem processFD_off_active_eq (s : AppState) (v : VmLog) (now t0 : ℚ) (d : Sample)
    (hw : is_interrupt_warn_met d = false)
    (ha : s.is_alarm_active = true)
    (hst : s.alarm_start_time = some t0) :
    processFetchedData s v now (some d) =
      ({ s with is_alarm_active := false,
                alarm_start_time := none,
                playback_count := 0,
                consecutive_warn_count := 0,
                success_count := s.success_count + 1,
                playback := Option.map (fun _ => false) s.playback },
       log_vm_usage v d.current_time d.vram_system_used_gb,
       ⟨false, 0, if clipPb s.playback d.clip_finished = some true then 1 else 0,
        some (now - t0), some false⟩) := by
  obtain ⟨tc, sc, fc, act, cw, ast, pc, pb⟩ := s
  simp only at ha hst
  rcases pb with _ | b <;> cases hcf : d.clip_finished <;> cases cw <;> try cases b
  all_goals
    simp [processFetchedData, hw, ha, hst, hcf, applyClip, clipPb, alarmOffTick]

/-- Recovery from Active with `alarm_start_time` unset (only reachable if
the start-time/active invariant were broken): deactivate without logging a
duration; `playback_count` is not cleared (line 271 guard false). -/
theorem processFD_off_active_nostart_eq (s : AppState) (v : VmLog) (now : ℚ) (d : Sample)
    (hw : is_interrupt_warn_met d = false)
    (ha : s.is_alarm_active = true)
    (hst : s.alarm_start_time = none) :
    processFetchedData s v now (some d) =
      ({ s with is_alarm_active := false,
                consecutive_warn_count := 0,
                success_count := s.success_count + 1,
                playback := Option.map (fun _ => false) s.playback },
       log_vm_usage v d.current_time d.vram_system_used_gb,
       ⟨false, 0, if clipPb s.playback d.clip_finished = some true then 1 else 0,
        none, some false⟩) := by
  obtain ⟨tc, sc, fc, act, cw, ast, pc, pb⟩ := s
  simp only at ha hst
  rcases pb with _ | b <;> cases hcf : d.clip_finished <;> cases cw <;> try cases b
  all_goals
    simp [processFetchedData, hw, ha, hst, hcf, applyClip, clipPb, alarmOffTick]

/-! ### The AlarmState invariant -/

/-- `alarm_start_time` is non-null exactly when the alarm is active. -/
def alarmInv (a : AppState) : Prop :=
  a.alarm_start_time.isSome = a.is_alarm_active

theorem processFD_preserves_alarmInv (s : AppState) (v : VmLog) (now : ℚ)
    (fetched : Option Sample) (h : alarmInv s) :
    alarmInv (processFetchedData s v now fetched).1 := by
  unfold alarmInv at h ⊢
  cases fetched with
  | none => simpa [processFD_err_eq] using h
  | some d =>
    cases hw : is_interrupt_warn_met d with
    | true =>
      cases ha : s.is_alarm_active with
      | false =>
        rcases Nat.lt_or_ge (s.consecutive_warn_count + 1) WARN_COUNT_THRESHOLD with hc | hc
        · rw [processFD_arm_eq s v now d hw ha hc]
          simpa [ha] using h
        · rw [processFD_fire_eq s v now d hw ha hc]
          simp
      | true =>
        by_cases hpb : clipPb s.playback d.clip_finished = some false
        · rw [processFD_active_replay_eq s v now d hw ha hpb]
          simpa [ha] using h
        · rw [processFD_active_noreplay_eq s v now d hw ha hpb]
          simpa [ha] using h
    | false =>
      cases ha : s.is_alarm_active with
      | false =>
        rw [processFD_off_idle_eq s v now d hw ha]
        simpa [ha] using h
      | true =>
        obtain ⟨t0, hst⟩ : ∃ t0, s.alarm_start_time = some t0 := by
          rw [ha] at h
          exact Option.isSome_iff_exists.mp h
        rw [processFD_off_active_eq s v now t0 d hw ha hst]
        simp

theorem engineTick_preserves_alarmInv (e : EngineState) (now : ℚ)
    (f : Option RawFetch) (h : alarmInv e.app) :
    alarmInv (engineTick e now f).1.app := by
  have hT : alarmInv { e.app with total_checks := e.app.total_checks + 1 } := h
  cases f with
  | none => exact processFD_preserves_alarmInv _ _ _ _ hT
  | some r => exact processFD_preserves_alarmInv _ _ _ _ hT

theorem engineRun_preserves_alarmInv :
    ∀ (l : List (ℚ × Option RawFetch)) (e : EngineState), alarmInv e.app →
      alarmInv (engineRun e l).1.app
  | [], _, h => h
  | (now, f) :: rest, e, h =>
      engineRun_preserves_alarmInv rest _ (engineTick_preserves_alarmInv e now f h)

/-- C3: in every state reachable from startup by any sequence of ticks,
`alarm_start_time` is non-null iff `is_alarm_active` is true. -/
theorem reachable_alarm_start_time_iff_active (pb : Option Bool) (t : ℚ)
    (l : List (ℚ × Option RawFetch)) :
    ((engineRun (initEngine pb t) l).1.app.alarm_start_time).isSome
      = (engineRun (initEngine pb t) l).1.app.is_alarm_active :=
  engineRun_preserves_alarmInv l _ rfl

/-- C6: a tick whose fetch fails only bumps `total_checks` and
`failure_count` and emits the error snapshot; the alarm lifecycle fields,
the playback handle, the VM log and the stall detector's
streak and baseline are all untouched, and no sound call happens. -/
theorem fetch_failure_tick_eq (e : EngineState) (now : ℚ) :
    engineTick e now none =
      (⟨{ e.app with total_checks := e.app.total_checks + 1,
                     failure_count := e.app.failure_count + 1 },
        e.vmlog, e.collector⟩,
       ⟨true, 0, 0, none, none⟩) := rfl

/-! ### Stall detector claims -/

/-- C4: the first stall-detector evaluation records the baseline and
returns not-active; counts [5,5,5] at boundaries 0s/30s/60s give
alertActive = false after the first no-increase (streak 1) and true after
the second (streak 2); and a strict count increase at a window boundary
resets the streak to 0 with alertActive = false. -/
theorem stall_detector_scenarios :
    (∀ (c : DataCollector) (t : ℚ) (n : ℕ), c.last_webui_file_count = -1 →
        (check_webui_generation_status c t n).2 = false
        ∧ (check_webui_generation_status c t n).1.last_webui_file_count = (n : Int)
        ∧ (check_webui_generation_status c t n).1.last_webui_check_time = t
        ∧ (check_webui_generation_status c t n).1.consecutive_webui_no_increase_count
            = c.consecutive_webui_no_increase_count)
    ∧ ((check_webui_generation_status (initCollector 0) 0 5).2 = false
       ∧ (check_webui_generation_status
            (check_webui_generation_status (initCollector 0) 0 5).1 30 5).2 = false
       ∧ (check_webui_generation_status
            (check_webui_generation_status (initCollector 0) 0 5).1 30
            5).1.consecutive_webui_no_increase_count = 1
       ∧ (check_webui_generation_status (check_webui_generation_status
            (check_webui_generation_status (initCollector 0) 0 5).1 30 5).1 60 5).2 = true
       ∧ (check_webui_generation_status (check_webui_generation_status
            (check_webui_generation_status (initCollector 0) 0 5).1 30 5).1 60
            5).1.consecutive_webui_no_increase_count = 2)
    ∧ (∀ (c : DataCollector) (t : ℚ) (n : ℕ), c.last_webui_file_count ≠ -1 →
        WEBUI_CHECK_INTERVAL_SECONDS ≤ t - c.last_webui_check_time →
        c.last_webui_file_count < (n : Int) →
        (check_webui_generation_status c t n).2 = false
        ∧ (check_webui_generation_status c t n).1.consecutive_webui_no_increase_count
            = 0) := by
  refine ⟨?_, ?_, ?_⟩
  · intro c t n h
    unfold check_webui_generation_status
    rw [if_pos h]
    exact ⟨rfl, rfl, rfl, rfl⟩
  · norm_num [check_webui_generation_status, initCollector,
      WEBUI_CHECK_INTERVAL_SECONDS, WEBUI_WARN_CYCLE_THRESHOLD]
  · intro c t n h1 h2 h3
    unfold check_webui_generation_status
    rw [if_neg h1, if_pos (le_trans (by norm_num [WEBUI_CHECK_INTERVAL_SECONDS]) h2),
      if_pos h3]
    exact ⟨rfl, rfl⟩

/-- C4 witness: the universally quantified parts of
`stall_detector_scenarios` at concrete inputs. -/
theorem stall_detector_scenarios_witness :
    ((check_webui_generation_status (initCollector 3) 7 4).2 = false
     ∧ (check_webui_generation_status (initCollector 3) 7 4).1.last_webui_file_count = 4)
    ∧ ((check_webui_generation_status ⟨0, 5, 1⟩ 30 9).2 = false
       ∧ (check_webui_generation_status
            ⟨0, 5, 1⟩ 30 9).1.consecutive_webui_no_increase_count = 0) := by
  have h := stall_detector_scenarios
  refine ⟨⟨(h.1 (initCollector 3) 7 4 rfl).1, (h.1 (initCollector 3) 7 4 rfl).2.1⟩, ?_⟩
  have h3 := h.2.2 ⟨0, 5, 1⟩ 30 9 (by norm_num)
    (by norm_num [WEBUI_CHECK_INTERVAL_SECONDS]) (by norm_num)
  exact ⟨h3.1, h3.2⟩

/-- C5 counterexample: after a boundary at time 0, the call at time 29 is
strictly earlier than one full 30 s window, yet the code (whose guard is
`elapsed >= interval - 1.0`) performs the comparison: the streak moves
from 0 to 1 and the baseline time is updated to 29. -/
theorem stall_compare_before_full_window :
    ((29 : ℚ) - (check_webui_generation_status (initCollector 0) 0 5).1.last_webui_check_time
        < WEBUI_CHECK_INTERVAL_SECONDS)
    ∧ (check_webui_generation_status (initCollector 0) 0
        5).1.consecutive_webui_no_increase_count = 0
    ∧ (check_webui_generation_status
        (check_webui_generation_status (initCollector 0) 0 5).1 29
        5).1.consecutive_webui_no_increase_count = 1
    ∧ (check_webui_generation_status
        (check_webui_generation_status (initCollector 0) 0 5).1 29
        5).1.last_webui_check_time = 29 := by
  norm_num [check_webui_generation_status, initCollector,
    WEBUI_CHECK_INTERVAL_SECONDS, WEBUI_WARN_CYCLE_THRESHOLD]

/-- C5 (amended): after initialization, the count comparison and any
streak/baseline update happen exactly once `check_interval_seconds - 1`
(29 s) has elapsed since the previous boundary; a call strictly earlier
than 29 s after the boundary performs no comparison and leaves the
detector state (streak and baseline) completely unchanged. -/
theorem stall_compare_at_interval_minus_one (c : DataCollector) (t : ℚ) (n : ℕ)
    (hinit : c.last_webui_file_count ≠ -1) :
    (t - c.last_webui_check_time < WEBUI_CHECK_INTERVAL_SECONDS - 1 →
      (check_webui_generation_status c t n).1 = c)
    ∧ (WEBUI_CHECK_INTERVAL_SECONDS - 1 ≤ t - c.last_webui_check_time →
      (check_webui_generation_status c t n).1.last_webui_check_time = t
      ∧ (check_webui_generation_status c t n).1.last_webui_file_count = (n : Int)) := by
  constructor
  · intro h
    unfold check_webui_generation_status
    rw [if_neg hinit, if_neg (not_le.mpr h)]
    split
    · rfl
    · rfl
  · intro h
    unfold check_webui_generation_status
    rw [if_neg hinit, if_pos h]
    split
    · exact ⟨rfl, rfl⟩
    · exact ⟨rfl, rfl⟩

/-! ### AlarmController lifecycle claims -/

/-- C1: starting Idle (inactive, counter 0, no start time), seven
consecutive ticks with the aggregated condition true arm the counter to
1..6 without activating, and on the 7th tick the controller goes Active:
it records `alarm_start_time` (the 7th tick's clock), increments the
lifetime failure counter, resets the counter to 0, and `_play_beep_alarm`
runs exactly once over the whole run — in particular not again on a
subsequent Active tick while the clip is still playing. -/
theorem alarm_idle_to_active_on_seventh_tick
    (s : AppState) (v : VmLog)
    (ha : s.is_alarm_active = false) (hcw : s.consecutive_warn_count = 0)
    (hst : s.alarm_start_time = none)
    (t1 t2 t3 t4 t5 t6 t7 t8 : ℚ) (x1 x2 x3 x4 x5 x6 x7 x8 : Sample)
    (h1 : is_interrupt_warn_met x1 = true) (h2 : is_interrupt_warn_met x2 = true)
    (h3 : is_interrupt_warn_met x3 = true) (h4 : is_interrupt_warn_met x4 = true)
    (h5 : is_interrupt_warn_met x5 = true) (h6 : is_interrupt_warn_met x6 = true)
    (h7 : is_interrupt_warn_met x7 = true) (h8 : is_interrupt_warn_met x8 = true)
    (hclip : x8.clip_finished = false) :
    ((processRun s v [(t1, some x1)]).1.consecutive_warn_count = 1
     ∧ (processRun s v [(t1, some x1)]).1.is_alarm_active = false)
    ∧ ((processRun s v [(t1, some x1), (t2, some x2)]).1.consecutive_warn_count = 2
       ∧ (processRun s v [(t1, some x1), (t2, some x2)]).1.is_alarm_active = false)
    ∧ ((processRun s v [(t1, some x1), (t2, some x2),
          (t3, some x3)]).1.consecutive_warn_count = 3
       ∧ (processRun s v [(t1, some x1), (t2, some x2),
          (t3, some x3)]).1.is_alarm_active = false)
    ∧ ((processRun s v [(t1, some x1), (t2, some x2), (t3, some x3),
          (t4, some x4)]).1.consecutive_warn_count = 4
       ∧ (processRun s v [(t1, some x1), (t2, some x2), (t3, some x3),
          (t4, some x4)]).1.is_alarm_active = false)
    ∧ ((processRun s v [(t1, some x1), (t2, some x2), (t3, some x3), (t4, some x4),
          (t5, some x5)]).1.consecutive_warn_count = 5
       ∧ (processRun s v [(t1, some x1), (t2, some x2), (t3, some x3), (t4, some x4),
          (t5, some x5)]).1.is_alarm_active = false)
    ∧ ((processRun s v [(t1, some x1), (t2, some x2), (t3, some x3), (t4, some x4),
          (t5, some x5), (t6, some x6)]).1.consecutive_warn_count = 6
       ∧ (processRun s v [(t1, some x1), (t2, some x2), (t3, some x3), (t4, some x4),
          (t5, some x5), (t6, some x6)]).1.is_alarm_active = false)
    ∧ ((processRun s v [(t1, some x1), (t2, some x2), (t3, some x3), (t4, some x4),
          (t5, some x5), (t6, some x6), (t7, some x7)]).1.is_alarm_active = true
       ∧ (processRun s v [(t1, some x1), (t2, some x2), (t3, some x3), (t4, some x4),
          (t5, some x5), (t6, some x6), (t7, some x7)]).1.alarm_start_time = some t7
       ∧ (processRun s v [(t1, some x1), (t2, some x2), (t3, some x3), (t4, some x4),
          (t5, some x5), (t6, some x6), (t7, some x7)]).1.failure_count
           = s.failure_count + 1
       ∧ (processRun s v [(t1, some x1), (t2, some x2), (t3, some x3), (t4, some x4),
          (t5, some x5), (t6, some x6), (t7, some x7)]).1.consecutive_warn_count = 0)
    ∧ playsSum (processRun s v [(t1, some x1), (t2, some x2), (t3, some x3),
          (t4, some x4), (t5, some x5), (t6, some x6)]).2.2 = 0
    ∧ playsSum (processRun s v [(t1, some x1), (t2, some x2), (t3, some x3),
          (t4, some x4), (t5, some x5), (t6, some x6), (t7, some x7)]).2.2 = 1
    ∧ playsSum (processRun s v [(t1, some x1), (t2, some x2), (t3, some x3),
          (t4, some x4), (t5, some x5), (t6, some x6), (t7, some x7),
          (t8, some x8)]).2.2 = 1 := by
  obtain ⟨tc, sc, fc, act, cw, ast, pc, pb⟩ := s
  simp only at ha hcw hst
  subst ha; subst hcw; subst hst
  simp [processRun, processFD_arm_eq, processFD_fire_eq, processFD_active_noreplay_eq,
    h1, h2, h3, h4, h5, h6, h7, h8, hclip, WARN_COUNT_THRESHOLD, clipPb, playsSum]

/-- C1 witness: the scenario at concrete inputs (VRAM reading 0 bytes on
every tick, ticks at times 1..8). -/
theorem alarm_idle_to_active_on_seventh_tick_witness :
    (processRun (initAppState (some false)) initVmLog
      [(1, some ⟨0, 10, false, 0, 1, false⟩), (2, some ⟨0, 10, false, 0, 2, false⟩),
       (3, some ⟨0, 10, false, 0, 3, false⟩), (4, some ⟨0, 10, false, 0, 4, false⟩),
       (5, some ⟨0, 10, false, 0, 5, false⟩), (6, some ⟨0, 10, false, 0, 6, false⟩),
       (7, some ⟨0, 10, false, 0, 7, false⟩)]).1.is_alarm_active = true
    ∧ (processRun (initAppState (some false)) initVmLog
      [(1, some ⟨0, 10, false, 0, 1, false⟩), (2, some ⟨0, 10, false, 0, 2, false⟩),
       (3, some ⟨0, 10, false, 0, 3, false⟩), (4, some ⟨0, 10, false, 0, 4, false⟩),
       (5, some ⟨0, 10, false, 0, 5, false⟩), (6, some ⟨0, 10, false, 0, 6, false⟩),
       (7, some ⟨0, 10, false, 0, 7, false⟩)]).1.alarm_start_time = some 7
    ∧ playsSum (processRun (initAppState (some false)) initVmLog
      [(1, some ⟨0, 10, false, 0, 1, false⟩), (2, some ⟨0, 10, false, 0, 2, false⟩),
       (3, some ⟨0, 10, false, 0, 3, false⟩), (4, some ⟨0, 10, false, 0, 4, false⟩),
       (5, some ⟨0, 10, false, 0, 5, false⟩), (6, some ⟨0, 10, false, 0, 6, false⟩),
       (7, some ⟨0, 10, false, 0, 7, false⟩),
       (8, some ⟨0, 10, false, 0, 8, false⟩)]).2.2 = 1 := by
  have hwarn : ∀ t : ℚ, is_interrupt_warn_met ⟨0, 10, false, 0, t, false⟩ = true := by
    intro t
    norm_num [is_interrupt_warn_met, is_vram_warn_met, MEMORY_WARN_THRESHOLD_BYTES,
      MEMORY_WARN_THRESHOLD_GB]
  have h := alarm_idle_to_active_on_seventh_tick (initAppState (some false)) initVmLog
    rfl rfl rfl 1 2 3 4 5 6 7 8
    ⟨0, 10, false, 0, 1, false⟩ ⟨0, 10, false, 0, 2, false⟩ ⟨0, 10, false, 0, 3, false⟩
    ⟨0, 10, false, 0, 4, false⟩ ⟨0, 10, false, 0, 5, false⟩ ⟨0, 10, false, 0, 6, false⟩
    ⟨0, 10, false, 0, 7, false⟩ ⟨0, 10, false, 0, 8, false⟩
    (hwarn 1) (hwarn 2) (hwarn 3) (hwarn 4) (hwarn 5) (hwarn 6) (hwarn 7) (hwarn 8) rfl
  exact ⟨h.2.2.2.2.2.2.1.1, h.2.2.2.2.2.2.1.2.1, h.2.2.2.2.2.2.2.2.2⟩

/-- C2: on a processed tick whose aggregated condition is false,
`_play_beep_alarm` never runs; from Arming (inactive) the consecutive
counter resets to 0; from Active the alarm deactivates on that single
tick, logs the non-negative duration `now - alarm_start_time`, clears the
start time and the replay counter, leaves the player inactive, and — if
the clip was still audible — calls `stop()` exactly once. -/
theorem alarm_clears_on_first_false_tick
    (s : AppState) (v : VmLog) (now t0 : ℚ) (d : Sample)
    (hw : is_interrupt_warn_met d = false) :
    (processFetchedData s v now (some d)).2.2.play_calls = 0
    ∧ (s.is_alarm_active = false →
        (processFetchedData s v now (some d)).1.consecutive_warn_count = 0)
    ∧ (s.is_alarm_active = true → s.alarm_start_time = some t0 → t0 ≤ now →
        (processFetchedData s v now (some d)).1.is_alarm_active = false
        ∧ (processFetchedData s v now (some d)).2.2.logged_duration = some (now - t0)
        ∧ 0 ≤ now - t0
        ∧ (processFetchedData s v now (some d)).1.alarm_start_time = none
        ∧ (processFetchedData s v now (some d)).1.playback_count = 0
        ∧ (processFetchedData s v now (some d)).1.consecutive_warn_count = 0
        ∧ (processFetchedData s v now (some d)).1.playback ≠ some true
        ∧ (s.playback = some true → d.clip_finished = false →
            (processFetchedData s v now (some d)).2.2.stop_calls = 1)) := by
  refine ⟨?_, ?_, ?_⟩
  · cases ha : s.is_alarm_active with
    | false => rw [processFD_off_idle_eq s v now d hw ha]
    | true =>
      cases hast : s.alarm_start_time with
      | none => rw [processFD_off_active_nostart_eq s v now d hw ha hast]
      | some t => rw [processFD_off_active_eq s v now t d hw ha hast]
  · intro ha
    rw [processFD_off_idle_eq s v now d hw ha]
  · intro ha hast hle
    rw [processFD_off_active_eq s v now t0 d hw ha hast]
    refine ⟨rfl, rfl, by linarith, rfl, rfl, rfl, ?_, ?_⟩
    · show Option.map (fun _ => false) s.playback ≠ some true
      cases s.playback <;> simp
    · intro hpb hcf
      show (if clipPb s.playback d.clip_finished = some true then 1 else 0) = 1
      rw [if_pos (by simp [clipPb, hpb, hcf])]

/-- C2 witness: recovery at a concrete Active state (start time 5,
recovery at time 7, player audible). -/
theorem alarm_clears_on_first_false_tick_witness :
    (processFetchedData ⟨9, 0, 1, true, 0, some 5, 3, some true⟩ initVmLog 7
        (some ⟨9 * 1024 ^ 3, 10, false, 0, 7, false⟩)).1.is_alarm_active = false
    ∧ (processFetchedData ⟨9, 0, 1, true, 0, some 5, 3, some true⟩ initVmLog 7
        (some ⟨9 * 1024 ^ 3, 10, false, 0, 7, false⟩)).2.2.logged_duration
        = some (7 - 5)
    ∧ (processFetchedData ⟨9, 0, 1, true, 0, some 5, 3, some true⟩ initVmLog 7
        (some ⟨9 * 1024 ^ 3, 10, false, 0, 7, false⟩)).1.playback_count = 0
    ∧ (processFetchedData ⟨9, 0, 1, true, 0, some 5, 3, some true⟩ initVmLog 7
        (some ⟨9 * 1024 ^ 3, 10, false, 0, 7, false⟩)).2.2.stop_calls = 1 := by
  have hw : is_interrupt_warn_met ⟨9 * 1024 ^ 3, 10, false, 0, 7, false⟩ = false := by
    norm_num [is_interrupt_warn_met, is_vram_warn_met, MEMORY_WARN_THRESHOLD_BYTES,
      MEMORY_WARN_THRESHOLD_GB]
  have h := alarm_clears_on_first_false_tick ⟨9, 0, 1, true, 0, some 5, 3, some true⟩
    initVmLog 7 5 ⟨9 * 1024 ^ 3, 10, false, 0, 7, false⟩ hw
  have h3 := h.2.2 rfl rfl (by norm_num)
  exact ⟨h3.1, h3.2.1, h3.2.2.2.2.1, h3.2.2.2.2.2.2.2 rfl rfl⟩

/-- C5 amended-claim witness: at 28 s the state is untouched, at 29 s the
baseline moves. -/
theorem stall_compare_at_interval_minus_one_witness :
    (check_webui_generation_status ⟨0, 5, 0⟩ 28 5).1 = ⟨0, 5, 0⟩
    ∧ (check_webui_generation_status ⟨0, 5, 0⟩ 29 5).1.last_webui_check_time = 29 := by
  have h28 := stall_compare_at_interval_minus_one ⟨0, 5, 0⟩ 28 5 (by norm_num)
  have h29 := stall_compare_at_interval_minus_one ⟨0, 5, 0⟩ 29 5 (by norm_num)
  exact ⟨h28.1 (by norm_num [WEBUI_CHECK_INTERVAL_SECONDS]),
    (h29.2 (by norm_num [WEBUI_CHECK_INTERVAL_SECONDS])).1⟩

/-! ### Exception routing of the fetch-completion callback -/

/-- `_on_data_fetch_complete` (lines 190-202): the `try`/`except` wraps
only `future.result()`; a failed fetch is routed to the error path of
`_process_fetched_data`, while a successful sample is handed to the
(separately scheduled) main-thread evaluation, whose own failure —
modelled by `evalSample` returning `Except.error` — is outside the
handler and propagates.  (The `CancelledError` shutdown path, which drops
the tick, is not modelled.) -/
def on_data_fetch_complete (s : AppState) (v : VmLog) (now : ℚ)
    (fetchOutcome : Except String Sample)
    (evalSample : Sample → Except String (AppState × VmLog × TickOutput)) :
    Except String (AppState × VmLog × TickOutput) :=
  match fetchOutcome with
  | Except.error _ => Except.ok (processFetchedData s v now none)
  | Except.ok d => evalSample d

/-- C7 counterexample: with a successful fetch, an exception raised while
evaluating the sample in the consumer context is not caught — the result
is the propagated error, not a caught state with an incremented failure
counter and an error snapshot. -/
theorem consumer_eval_error_propagates :
    on_data_fetch_complete (initAppState none) initVmLog 0
        (Except.ok ⟨0, 0, false, 0, 0, false⟩)
        (fun _ => Except.error "boom")
      = Except.error "boom" := rfl

/-- C7 (amended): an exception raised during the background fetch is
caught, counted as a failure tick and surfaced as an error snapshot,
leaving evaluation skipped; an exception raised while evaluating a
successfully fetched sample passes through `_on_data_fetch_complete`
uncaught (no failure increment, no error snapshot from the app's own
handler). -/
theorem fetch_error_caught_eval_error_uncaught :
    (∀ (s : AppState) (v : VmLog) (now : ℚ) (msg : String)
        (evalSample : Sample → Except String (AppState × VmLog × TickOutput)),
      on_data_fetch_complete s v now (Except.error msg) evalSample
        = Except.ok (processFetchedData s v now none)
      ∧ (processFetchedData s v now none).1.failure_count = s.failure_count + 1
      ∧ (processFetchedData s v now none).2.2.error_snapshot = true)
    ∧ (∀ (s : AppState) (v : VmLog) (now : ℚ) (d : Sample)
        (evalSample : Sample → Except String (AppState × VmLog × TickOutput)),
      on_data_fetch_complete s v now (Except.ok d) evalSample = evalSample d) :=
  ⟨fun _ _ _ _ _ => ⟨rfl, rfl, rfl⟩, fun _ _ _ _ _ => rfl⟩

/-! ### GPU-query failure semantics -/

/-- C9: a failed GPU statistics query yields `mem_used_bytes = 0` and
`gpu_util = 0` instead of an error; 0 bytes is below the 8 GB VRAM
threshold, so on such a tick the aggregated condition counts as met and
the debounce counter advances — the tick is processed, not skipped. -/
theorem gpu_query_failure_counts_as_warn
    (s : AppState) (v : VmLog) (now : ℚ) (d : Sample)
    (hmem : d.mem_used_bytes = gpu_stats_on_error.mem_used_bytes)
    (ha : s.is_alarm_active = false)
    (hc : s.consecutive_warn_count + 1 < WARN_COUNT_THRESHOLD) :
    gpu_stats_on_error.mem_used_bytes = 0
    ∧ gpu_stats_on_error.gpu_util = 0
    ∧ is_vram_warn_met gpu_stats_on_error.mem_used_bytes = true
    ∧ (processFetchedData s v now (some d)).1.consecutive_warn_count
        = s.consecutive_warn_count + 1
    ∧ (processFetchedData s v now (some d)).2.2.error_snapshot = false
    ∧ (processFetchedData s v now (some d)).1.failure_count = s.failure_count
    ∧ (processFetchedData s v now (some d)).1.success_count = s.success_count := by
  have hv : is_vram_warn_met gpu_stats_on_error.mem_used_bytes = true := by
    norm_num [is_vram_warn_met, gpu_stats_on_error, MEMORY_WARN_THRESHOLD_BYTES,
      MEMORY_WARN_THRESHOLD_GB]
  have hw : is_interrupt_warn_met d = true := by
    simp [is_interrupt_warn_met, hmem, hv]
  rw [processFD_arm_eq s v now d hw ha hc]
  exact ⟨rfl, rfl, hv, rfl, rfl, rfl, rfl⟩

/-- C9 witness: a fresh controller processing the error-fallback sample
advances its counter from 0 to 1. -/
theorem gpu_query_failure_counts_as_warn_witness :
    (processFetchedData (initAppState none) initVmLog 0
        (some ⟨0, 0, false, 0, 0, false⟩)).1.consecutive_warn_count = 1
    ∧ (processFetchedData (initAppState none) initVmLog 0
        (some ⟨0, 0, false, 0, 0, false⟩)).1.failure_count = 0 := by
  have h := gpu_query_failure_counts_as_warn (initAppState none) initVmLog 0
    ⟨0, 0, false, 0, 0, false⟩ rfl rfl (by norm_num [WARN_COUNT_THRESHOLD, initAppState])
  exact ⟨h.2.2.2.1, h.2.2.2.2.2.1⟩

/-! ### Non-interference of the committed-memory value -/

/-- Two per-tick fetch results that agree on everything except the
committed/virtual-memory reading (`vram_system_used_bytes`). -/
def sameExceptVm : Option RawFetch → Option RawFetch → Prop
  | none, none => True
  | some r1, some r2 =>
      r1.mem_used_bytes = r2.mem_used_bytes
      ∧ r1.current_file_count = r2.current_file_count
      ∧ r1.clip_finished = r2.clip_finished
  | _, _ => False

/-- Same tick time, fetches agreeing except on the VM reading. -/
def tickAgreesExceptVm (p q : ℚ × Option RawFetch) : Prop :=
  p.1 = q.1 ∧ sameExceptVm p.2 q.2

/-- The app-state and output components of `processFetchedData` do not
read the VM log. -/
theorem processFD_indep_vmlog (s : AppState) (v1 v2 : VmLog) (now : ℚ)
    (fetched : Option Sample) :
    (processFetchedData s v1 now fetched).1 = (processFetchedData s v2 now fetched).1
    ∧ (processFetchedData s v1 now fetched).2.2
        = (processFetchedData s v2 now fetched).2.2 := by
  cases fetched <;> exact ⟨rfl, rfl⟩

/-- The app-state and output components of `processFetchedData` read the
sample only through `mem_used_bytes`, the webui alert flag and the clip
event — never through `vram_system_used_gb`. -/
theorem processFD_indep_vm_sample (s : AppState) (v1 v2 : VmLog) (now : ℚ)
    (d1 d2 : Sample)
    (hm : d1.mem_used_bytes = d2.mem_used_bytes)
    (hwa : d1.is_webui_alert_active = d2.is_webui_alert_active)
    (hcf : d1.clip_finished = d2.clip_finished) :
    (processFetchedData s v1 now (some d1)).1 = (processFetchedData s v2 now (some d2)).1
    ∧ (processFetchedData s v1 now (some d1)).2.2
        = (processFetchedData s v2 now (some d2)).2.2 := by
  have hw : is_interrupt_warn_met d1 = is_interrupt_warn_met d2 := by
    simp [is_interrupt_warn_met, hm, hwa]
  refine ⟨?_, ?_⟩ <;> simp only [processFetchedData, hw, hcf]

theorem engineTick_vm_noninterference (a : AppState) (v1 v2 : VmLog)
    (c : DataCollector) (now : ℚ) (f1 f2 : Option RawFetch)
    (h : sameExceptVm f1 f2) :
    (engineTick ⟨a, v1, c⟩ now f1).1.app = (engineTick ⟨a, v2, c⟩ now f2).1.app
    ∧ (engineTick ⟨a, v1, c⟩ now f1).1.collector
        = (engineTick ⟨a, v2, c⟩ now f2).1.collector
    ∧ (engineTick ⟨a, v1, c⟩ now f1).2 = (engineTick ⟨a, v2, c⟩ now f2).2 := by
  cases f1 with
  | none =>
    cases f2 with
    | none => exact ⟨rfl, rfl, rfl⟩
    | some r2 => exact absurd h (by simp [sameExceptVm])
  | some r1 =>
    cases f2 with
    | none => exact absurd h (by simp [sameExceptVm])
    | some r2 =>
      obtain ⟨hm, hf, hcl⟩ := h
      have hp := processFD_indep_vm_sample
        { a with total_checks := a.total_checks + 1 } v1 v2 now
        ⟨r1.mem_used_bytes, r1.vram_system_used_bytes / 1024 ^ 3,
         (check_webui_generation_status c now r1.current_file_count).2,
         r1.current_file_count, now, r1.clip_finished⟩
        ⟨r2.mem_used_bytes, r2.vram_system_used_bytes / 1024 ^ 3,
         (check_webui_generation_status c now r2.current_file_count).2,
         r2.current_file_count, now, r2.clip_finished⟩
        (by simp [hm]) (by simp [hf]) (by simp [hcl])
      refine ⟨hp.1, ?_, hp.2⟩
      show (check_webui_generation_status c now r1.current_file_count).1
          = (check_webui_generation_status c now r2.current_file_count).1
      rw [hf]

theorem engineRun_vm_noninterference :
    ∀ (l1 l2 : List (ℚ × Option RawFetch)),
      List.Forall₂ tickAgreesExceptVm l1 l2 →
      ∀ (a : AppState) (v1 v2 : VmLog) (c : DataCollector),
        (engineRun ⟨a, v1, c⟩ l1).1.app = (engineRun ⟨a, v2, c⟩ l2).1.app
        ∧ (engineRun ⟨a, v1, c⟩ l1).1.collector
            = (engineRun ⟨a, v2, c⟩ l2).1.collector
        ∧ (engineRun ⟨a, v1, c⟩ l1).2 = (engineRun ⟨a, v2, c⟩ l2).2 := by
  intro l1
  induction l1 with
  | nil =>
    intro l2 h a v1 v2 c
    cases h
    exact ⟨rfl, rfl, rfl⟩
  | cons p rest ih =>
    intro l2 h a v1 v2 c
    cases h with
    | cons hpq hrest =>
      rename_i q rest2
      obtain ⟨p1, pf⟩ := p
      obtain ⟨q1, qf⟩ := q
      obtain ⟨ht, hs⟩ := hpq
      simp only at ht hs
      subst ht
      have hstep := engineTick_vm_noninterference a v1 v2 c p1 pf qf hs
      have htail := ih rest2 hrest
        ((engineTick ⟨a, v1, c⟩ p1 pf).1.app)
        ((engineTick ⟨a, v1, c⟩ p1 pf).1.vmlog)
        ((engineTick ⟨a, v2, c⟩ p1 qf).1.vmlog)
        ((engineTick ⟨a, v1, c⟩ p1 pf).1.collector)
      have he2 : (⟨(engineTick ⟨a, v1, c⟩ p1 pf).1.app,
                   (engineTick ⟨a, v2, c⟩ p1 qf).1.vmlog,
                   (engineTick ⟨a, v1, c⟩ p1 pf).1.collector⟩ : EngineState)
          = (engineTick ⟨a, v2, c⟩ p1 qf).1 := by
        rw [hstep.1, hstep.2.1]
      rw [he2] at htail
      exact ⟨htail.1, htail.2.1, by
        show (engineTick ⟨a, v1, c⟩ p1 pf).2
            :: (engineRun (engineTick ⟨a, v1, c⟩ p1 pf).1 rest).2
          = (engineTick ⟨a, v2, c⟩ p1 qf).2
            :: (engineRun (engineTick ⟨a, v2, c⟩ p1 qf).1 rest2).2
        rw [hstep.2.2, htail.2.2]⟩

/-- C8: the committed/virtual-memory value never feeds the alarm.  Two
tick sequences that agree on everything except the
`vram_system_used_bytes` readings produce identical alarm trajectories
(the whole `AppState`, hence `is_alarm_active`, `consecutive_warn_count`,
`alarm_start_time`, `playback_count`), identical stall-detector states,
and identical per-tick outputs — in particular identical
`_play_beep_alarm` and `stop()` invocations.  Crossing the 80 GB VM
threshold changes only the risk display colour. -/
theorem vm_value_never_feeds_alarm :
    (∀ (a : AppState) (v1 v2 : VmLog) (c : DataCollector)
       (l1 l2 : List (ℚ × Option RawFetch)),
      List.Forall₂ tickAgreesExceptVm l1 l2 →
        (engineRun ⟨a, v1, c⟩ l1).1.app = (engineRun ⟨a, v2, c⟩ l2).1.app
        ∧ (engineRun ⟨a, v1, c⟩ l1).1.collector
            = (engineRun ⟨a, v2, c⟩ l2).1.collector
        ∧ (engineRun ⟨a, v1, c⟩ l1).2 = (engineRun ⟨a, v2, c⟩ l2).2)
    ∧ (∀ gb : ℚ, vm_color gb = "orange" ↔ VIRTUAL_MEMORY_WARN_THRESHOLD_GB ≤ gb) := by
  constructor
  · intro a v1 v2 c l1 l2 h
    exact engineRun_vm_noninterference l1 l2 h a v1 v2 c
  · intro gb
    unfold vm_color
    constructor
    · intro h
      by_contra hc
      rw [if_neg hc] at h
      exact absurd h (by decide)
    · intro h
      rw [if_pos h]

/-- C8 witness: one tick reading VM = 0 bytes versus VM = 200 GB — same
alarm state, same outputs; and the two VM readings land on the two
display colours. -/
theorem vm_value_never_feeds_alarm_witness :
    (engineRun (initEngine none 0) [((0 : ℚ), some ⟨0, 0, 5, false⟩)]).1.app
      = (engineRun ⟨initAppState none, initVmLog, initCollector 0⟩
          [((0 : ℚ), some ⟨0, 200 * 1024 ^ 3, 5, false⟩)]).1.app
    ∧ (engineRun (initEngine none 0) [((0 : ℚ), some ⟨0, 0, 5, false⟩)]).2
      = (engineRun ⟨initAppState none, initVmLog, initCollector 0⟩
          [((0 : ℚ), some ⟨0, 200 * 1024 ^ 3, 5, false⟩)]).2
    ∧ vm_color 200 = "orange" ∧ vm_color 0 = "SystemButtonFace" := by
  have h := vm_value_never_feeds_alarm
  have hrun := h.1 (initAppState none) initVmLog initVmLog (initCollector 0)
    [((0 : ℚ), some ⟨0, 0, 5, false⟩)]
    [((0 : ℚ), some ⟨0, 200 * 1024 ^ 3, 5, false⟩)]
    (List.Forall₂.cons ⟨rfl, rfl, rfl, rfl⟩ List.Forall₂.nil)
  refine ⟨hrun.1, hrun.2.2, (h.2 200).mpr (by norm_num [VIRTUAL_MEMORY_WARN_THRESHOLD_GB]), ?_⟩
  rw [vm_color, if_neg (by norm_num [VIRTUAL_MEMORY_WARN_THRESHOLD_GB])]

/-! ### Running totals -/

/-- Aggregated condition of a processed tick, computed from the raw fetch
and the pre-tick stall-detector state. -/
def tickInterrupt (e : EngineState) (now : ℚ) (r : RawFetch) : Bool :=
  is_vram_warn_met r.mem_used_bytes
    || (check_webui_generation_status e.collector now r.current_file_count).2

/-- Whether this tick increments `success_count`: a processed tick whose
aggregated condition is false. -/
def tickSuccessInc (e : EngineState) (now : ℚ) : Option RawFetch → Bool
  | none => false
  | some r => !(tickInterrupt e now r)

/-- Whether this tick increments `failure_count`: a fetch-error tick, or
an Idle→Active transition. -/
def tickFailureInc (e : EngineState) (now : ℚ) : Option RawFetch → Bool
  | none => true
  | some r =>
      tickInterrupt e now r && !e.app.is_alarm_active
        && decide (WARN_COUNT_THRESHOLD ≤ e.app.consecutive_warn_count + 1)

/-- Ticks on which neither total moves (Arming ticks, and Active ticks
whose condition stays true). -/
def tickNeither (e : EngineState) (now : ℚ) (f : Option RawFetch) : Bool :=
  !(tickSuccessInc e now f) && !(tickFailureInc e now f)

/-- How many such neither-ticks a run contains. -/
def countNeither : EngineState → List (ℚ × Option RawFetch) → ℕ
  | _, [] => 0
  | e, (now, f) :: rest =>
      (if tickNeither e now f = true then 1 else 0)
        + countNeither (engineTick e now f).1 rest

/-- Per-tick counter characterization at the `_process_fetched_data`
level: `total_checks` never moves there, `success_count` moves exactly on
condition-false ticks, `failure_count` exactly on Idle→Active firings. -/
theorem processFD_counters (s : AppState) (v : VmLog) (now : ℚ) (d : Sample) :
    (processFetchedData s v now (some d)).1.total_checks = s.total_checks
    ∧ (processFetchedData s v now (some d)).1.success_count
        = s.success_count + (if is_interrupt_warn_met d = false then 1 else 0)
    ∧ (processFetchedData s v now (some d)).1.failure_count
        = s.failure_count
          + (if is_interrupt_warn_met d = true ∧ s.is_alarm_active = false
                ∧ WARN_COUNT_THRESHOLD ≤ s.consecutive_warn_count + 1
             then 1 else 0) := by
  cases hw : is_interrupt_warn_met d with
  | true =>
    cases ha : s.is_alarm_active with
    | false =>
      rcases Nat.lt_or_ge (s.consecutive_warn_count + 1) WARN_COUNT_THRESHOLD with hc | hc
      · rw [processFD_arm_eq s v now d hw ha hc]
        simp [ha, Nat.not_le.mpr hc]
      · rw [processFD_fire_eq s v now d hw ha hc]
        simp [ha, hc]
    | true =>
      by_cases hpb : clipPb s.playback d.clip_finished = some false
      · rw [processFD_active_replay_eq s v now d hw ha hpb]
        simp [ha]
      · rw [processFD_active_noreplay_eq s v now d hw ha hpb]
        simp [ha]
  | false =>
    cases ha : s.is_alarm_active with
    | false =>
      rw [processFD_off_idle_eq s v now d hw ha]
      simp
    | true =>
      cases hst : s.alarm_start_time with
      | none =>
        rw [processFD_off_active_nostart_eq s v now d hw ha hst]
        simp
      | some t0 =>
        rw [processFD_off_active_eq s v now t0 d hw ha hst]
        simp

/-- Per-tick counter characterization at the engine level. -/
theorem engineTick_counters (e : EngineState) (now : ℚ) (f : Option RawFetch) :
    (engineTick e now f).1.app.total_checks = e.app.total_checks + 1
    ∧ (engineTick e now f).1.app.success_count
        = e.app.success_count + (if tickSuccessInc e now f = true then 1 else 0)
    ∧ (engineTick e now f).1.app.failure_count
        = e.app.failure_count + (if tickFailureInc e now f = true then 1 else 0) := by
  cases f with
  | none =>
    rw [fetch_failure_tick_eq]
    simp [tickSuccessInc, tickFailureInc]
  | some r =>
    have h := processFD_counters { e.app with total_checks := e.app.total_checks + 1 }
      e.vmlog now
      ⟨r.mem_used_bytes, r.vram_system_used_bytes / 1024 ^ 3,
       (check_webui_generation_status e.collector now r.current_file_count).2,
       r.current_file_count, now, r.clip_finished⟩
    have hw : is_interrupt_warn_met
        ⟨r.mem_used_bytes, r.vram_system_used_bytes / 1024 ^ 3,
         (check_webui_generation_status e.collector now r.current_file_count).2,
         r.current_file_count, now, r.clip_finished⟩ = tickInterrupt e now r := rfl
    rw [hw] at h
    refine ⟨h.1, h.2.1.trans ?_, h.2.2.trans ?_⟩
    · show e.app.success_count + _ = e.app.success_count + _
      congr 1
      cases hti : tickInterrupt e now r <;> simp [tickSuccessInc, hti]
    · show e.app.failure_count + _ = e.app.failure_count + _
      congr 1
      cases hti : tickInterrupt e now r <;>
        cases ha : e.app.is_alarm_active <;>
          rcases Nat.lt_or_ge (e.app.consecutive_warn_count + 1) WARN_COUNT_THRESHOLD
            with hc | hc <;>
        simp [tickFailureInc, hti, ha, hc, Nat.not_le.mpr, Nat.not_le]

/-- Each tick increments exactly one of: success, failure, or the
neither-count. -/
theorem tick_inc_split (e : EngineState) (now : ℚ) (f : Option RawFetch) :
    (if tickSuccessInc e now f = true then 1 else 0)
      + (if tickFailureInc e now f = true then 1 else 0)
      + (if tickNeither e now f = true then 1 else 0) = 1 := by
  cases f with
  | none => simp [tickSuccessInc, tickFailureInc, tickNeither]
  | some r =>
    rcases Bool.eq_false_or_eq_true (tickInterrupt e now r) with hti | hti
    · have hs : tickSuccessInc e now (some r) = false := by simp [tickSuccessInc, hti]
      rcases Bool.eq_false_or_eq_true (tickFailureInc e now (some r)) with hf | hf <;>
        simp [tickNeither, hs, hf]
    · have hs : tickSuccessInc e now (some r) = true := by simp [tickSuccessInc, hti]
      have hf : tickFailureInc e now (some r) = false := by simp [tickFailureInc, hti]
      simp [tickNeither, hs, hf]

/-- Trace-level accounting: totals equal the tick count, and success +
failure falls short of it by exactly the number of neither-ticks. -/
theorem engineRun_counters :
    ∀ (l : List (ℚ × Option RawFetch)) (e : EngineState),
      (engineRun e l).1.app.total_checks = e.app.total_checks + l.length
      ∧ (engineRun e l).1.app.success_count + (engineRun e l).1.app.failure_count
          + countNeither e l
        = e.app.success_count + e.app.failure_count + l.length := by
  intro l
  induction l with
  | nil => intro e; simp [engineRun, countNeither]
  | cons p rest ih =>
    intro e
    obtain ⟨now, f⟩ := p
    have ht := engineTick_counters e now f
    have hsplit := tick_inc_split e now f
    have ihh := ih (engineTick e now f).1
    constructor
    · show (engineRun (engineTick e now f).1 rest).1.app.total_checks
        = e.app.total_checks + ((now, f) :: rest).length
      rw [ihh.1, ht.1]
      simp only [List.length_cons]
      omega
    · show (engineRun (engineTick e now f).1 rest).1.app.success_count
          + (engineRun (engineTick e now f).1 rest).1.app.failure_count
          + ((if tickNeither e now f = true then 1 else 0)
              + countNeither (engineTick e now f).1 rest)
        = e.app.success_count + e.app.failure_count + ((now, f) :: rest).length
      have h2 := ihh.2
      rw [ht.2.1, ht.2.2] at h2
      simp only [List.length_cons]
      omega

/-- C10: the running totals do not partition the ticks.  Per tick:
`success_count` increments exactly on processed condition-false ticks and
`failure_count` exactly on fetch-error ticks and Idle→Active firings; on
an Arming tick or an Active tick whose condition stays true neither
moves; hence over any run from startup `total_checks` equals
`success + failure + countNeither`, and is strictly larger whenever a
neither-tick occurred. -/
theorem totals_do_not_partition_ticks :
    (∀ (e : EngineState) (now : ℚ) (f : Option RawFetch),
      (engineTick e now f).1.app.total_checks = e.app.total_checks + 1
      ∧ (engineTick e now f).1.app.success_count
          = e.app.success_count + (if tickSuccessInc e now f = true then 1 else 0)
      ∧ (engineTick e now f).1.app.failure_count
          = e.app.failure_count + (if tickFailureInc e now f = true then 1 else 0))
    ∧ (∀ (e : EngineState) (now : ℚ) (r : RawFetch),
        tickInterrupt e now r = true →
        (e.app.is_alarm_active = true
          ∨ e.app.consecutive_warn_count + 1 < WARN_COUNT_THRESHOLD) →
        (engineTick e now (some r)).1.app.success_count = e.app.success_count
        ∧ (engineTick e now (some r)).1.app.failure_count = e.app.failure_count)
    ∧ (∀ (pb : Option Bool) (t : ℚ) (l : List (ℚ × Option RawFetch)),
        (engineRun (initEngine pb t) l).1.app.total_checks
          = (engineRun (initEngine pb t) l).1.app.success_count
            + (engineRun (initEngine pb t) l).1.app.failure_count
            + countNeither (initEngine pb t) l)
    ∧ (∀ (pb : Option Bool) (t : ℚ) (l : List (ℚ × Option RawFetch)),
        0 < countNeither (initEngine pb t) l →
        (engineRun (initEngine pb t) l).1.app.success_count
          + (engineRun (initEngine pb t) l).1.app.failure_count
          < (engineRun (initEngine pb t) l).1.app.total_checks) := by
  have hrun : ∀ (pb : Option Bool) (t : ℚ) (l : List (ℚ × Option RawFetch)),
      (engineRun (initEngine pb t) l).1.app.total_checks
        = (engineRun (initEngine pb t) l).1.app.success_count
          + (engineRun (initEngine pb t) l).1.app.failure_count
          + countNeither (initEngine pb t) l := by
    intro pb t l
    have h := engineRun_counters l (initEngine pb t)
    have h0 : (initEngine pb t).app.total_checks = 0 := rfl
    have h1 : (initEngine pb t).app.success_count = 0 := rfl
    have h2 : (initEngine pb t).app.failure_count = 0 := rfl
    omega
  refine ⟨engineTick_counters, ?_, hrun, ?_⟩
  · intro e now r hti hor
    have h := engineTick_counters e now (some r)
    have hs : tickSuccessInc e now (some r) = false := by
      simp [tickSuccessInc, hti]
    have hf : tickFailureInc e now (some r) = false := by
      rcases hor with ha | hc
      · simp [tickFailureInc, ha]
      · simp [tickFailureInc, Nat.not_le.mpr hc]
    rw [hs] at h
    rw [hf] at h
    exact ⟨by simpa using h.2.1, by simpa using h.2.2⟩
  · intro pb t l hpos
    have h := hrun pb t l
    omega

/-- C10 witness: one condition-true tick from startup (VRAM reads 0,
counter 1 < 7): total is 1 while success + failure stays 0. -/
theorem totals_do_not_partition_ticks_witness :
    (engineRun (initEngine none 0) [((0 : ℚ), some ⟨0, 0, 0, false⟩)]).1.app.success_count
      + (engineRun (initEngine none 0) [((0 : ℚ), some ⟨0, 0, 0, false⟩)]).1.app.failure_count
      < (engineRun (initEngine none 0) [((0 : ℚ), some ⟨0, 0, 0, false⟩)]).1.app.total_checks
    ∧ (engineTick (initEngine none 0) 0 (some ⟨0, 0, 0, false⟩)).1.app.failure_count
        = (initEngine none 0).app.failure_count := by
  have hti : tickInterrupt (initEngine none 0) 0 ⟨0, 0, 0, false⟩ = true := by
    norm_num [tickInterrupt, is_vram_warn_met, MEMORY_WARN_THRESHOLD_BYTES,
      MEMORY_WARN_THRESHOLD_GB]
  have hcn : 0 < countNeither (initEngine none 0) [((0 : ℚ), some ⟨0, 0, 0, false⟩)] := by
    have hact : (initEngine none 0).app.is_alarm_active = false := rfl
    have hcw : decide (WARN_COUNT_THRESHOLD
        ≤ (initEngine none 0).app.consecutive_warn_count + 1) = false := by rfl
    have hn : tickNeither (initEngine none 0) 0 (some ⟨0, 0, 0, false⟩) = true := by
      simp [tickNeither, tickSuccessInc, tickFailureInc, hti, hact, hcw]
    simp [countNeither, hn]
  refine ⟨totals_do_not_partition_ticks.2.2.2 none 0 _ hcn, ?_⟩
  exact (totals_do_not_partition_ticks.2.1 (initEngine none 0) 0 ⟨0, 0, 0, false⟩ hti
    (Or.inr (by norm_num [WARN_COUNT_THRESHOLD, initEngine, initAppState]))).2

end Monitor
